import Mathlib

/-!
Shallow embedding of the resilience/admission control plane of the
`rust-api` repository: the circuit breaker
(`crates/monitoring/src/circuit_breaker.rs`), the rate-limiting
middleware (`crates/api/src/handlers/health.rs`), the feature-flag
engine (`crates/monitoring/src/feature_flags.rs`) and the error type
(`crates/core/src/error.rs`).

Modelling conventions:
* `Instant` and `Duration` are `Nat` (a monotone tick count); the Rust
  `last_failure.elapsed()` becomes truncated subtraction `now - lf`.
* Rust `u32` counters become `Nat` with an explicit `% 2 ^ 32` where the
  source performs a wrapping `fetch_add`.
* Rust `f32` percentages become `ℚ`.
* The async methods mutate shared state under locks; sequentially they
  are functions `CircuitBreaker → ... → CircuitBreaker` applied in the
  order the source acquires the locks.
* The result of `CircuitBreaker::call` carries an `invoked` flag
  recording whether `operation()` was executed (the source returns
  early, before `operation()`, when `is_open` is true).
-/

namespace RustApi

/-- States of the circuit breaker (`CircuitState` in the source). -/
inductive CircuitState
  | Closed
  | Open
  | HalfOpen
deriving DecidableEq, Repr

/-- `CircuitBreakerConfig` from `crates/core/src/enterprise.rs`:
`failure_threshold: u32`, `recovery_timeout: Duration`,
`half_open_max_calls: u32`. -/
structure CircuitBreakerConfig where
  failure_threshold : Nat
  recovery_timeout : Nat
  half_open_max_calls : Nat
deriving DecidableEq, Repr

/-- The mutable state of `CircuitBreaker`: `state`, `failure_count`
(an `AtomicU32`), `last_failure_time: Option<Instant>` and
`half_open_calls` (an `AtomicU32`). -/
structure CircuitBreaker where
  config : CircuitBreakerConfig
  state : CircuitState
  failure_count : Nat
  last_failure_time : Option Nat
  half_open_calls : Nat
deriving DecidableEq, Repr

namespace CircuitBreaker

/-- `CircuitBreaker::new`: starts `Closed`, zero failures, no recorded
failure time, zero half-open probes. -/
def new (config : CircuitBreakerConfig) : CircuitBreaker :=
  { config := config
    state := CircuitState.Closed
    failure_count := 0
    last_failure_time := none
    half_open_calls := 0 }

/-- `transition_to_open`: set state to `Open`, record the failure time
`Instant::now()`, reset the half-open probe counter. -/
def transition_to_open (now : Nat) (cb : CircuitBreaker) : CircuitBreaker :=
  { cb with
    state := CircuitState.Open
    last_failure_time := some now
    half_open_calls := 0 }

/-- `transition_to_half_open`: set state to `HalfOpen` and reset the
half-open probe counter (the failure count and failure time are kept). -/
def transition_to_half_open (cb : CircuitBreaker) : CircuitBreaker :=
  { cb with
    state := CircuitState.HalfOpen
    half_open_calls := 0 }

/-- `transition_to_closed`: set state to `Closed`, zero the failure
count, clear the failure time, reset the probe counter. -/
def transition_to_closed (cb : CircuitBreaker) : CircuitBreaker :=
  { cb with
    state := CircuitState.Closed
    failure_count := 0
    last_failure_time := none
    half_open_calls := 0 }

/-- `is_open`, evaluated at time `now`. Returns the admission verdict
(`true` = circuit treated as open, call rejected) together with the
breaker state after the check, because the `Open` branch may transition
to `HalfOpen` when `last_failure.elapsed() >= recovery_timeout`.
In the `HalfOpen` branch the source only LOADS `half_open_calls` and
compares it with `half_open_max_calls`; it never increments it. -/
def is_open (now : Nat) (cb : CircuitBreaker) : Bool × CircuitBreaker :=
  match cb.state with
  | CircuitState.Open =>
      match cb.last_failure_time with
      | some lf =>
          if cb.config.recovery_timeout ≤ now - lf then
            (false, transition_to_half_open cb)
          else
            (true, cb)
      | none => (true, cb)
  | CircuitState.HalfOpen =>
      (decide (cb.config.half_open_max_calls ≤ cb.half_open_calls), cb)
  | CircuitState.Closed => (false, cb)

/-- `on_success`: in `HalfOpen` transition to `Closed`; in `Closed`
store 0 into the failure counter; in `Open` only log a warning. -/
def on_success (cb : CircuitBreaker) : CircuitBreaker :=
  match cb.state with
  | CircuitState.HalfOpen => transition_to_closed cb
  | CircuitState.Closed => { cb with failure_count := 0 }
  | CircuitState.Open => cb

/-- `on_failure`, at time `now`: `fetch_add(1)` on the `u32` failure
counter (wrapping), then branch on the state read at entry: `Closed`
transitions to `Open` once `failures >= failure_threshold`; `HalfOpen`
transitions back to `Open`; `Open` refreshes `last_failure_time`. -/
def on_failure (now : Nat) (cb : CircuitBreaker) : CircuitBreaker :=
  let failures := (cb.failure_count + 1) % 2 ^ 32
  let cb1 := { cb with failure_count := failures }
  match cb.state with
  | CircuitState.Closed =>
      if cb.config.failure_threshold ≤ failures then
        transition_to_open now cb1
      else
        cb1
  | CircuitState.HalfOpen => transition_to_open now cb1
  | CircuitState.Open => { cb1 with last_failure_time := some now }

/-- `get_state` (pure read). -/
def get_state (cb : CircuitBreaker) : CircuitState := cb.state

/-- `get_failure_count` (pure read). -/
def get_failure_count (cb : CircuitBreaker) : Nat := cb.failure_count

end CircuitBreaker

/-- `ApiError` from `crates/core/src/error.rs`. Error payloads
(`sqlx::Error`, `anyhow::Error`, `config::ConfigError`) are modelled by
their display message. -/
inductive ApiError
  | Database (msg : String)
  | Unauthorized (msg : String)
  | Validation (msg : String)
  | NotFound (msg : String)
  | RateLimitExceeded (msg : String)
  | Internal (msg : String)
  | BadRequest (msg : String)
  | Conflict (msg : String)
  | Config (msg : String)
deriving DecidableEq, Repr

namespace ApiError

/-- The `(status, error_message, error_code)` triple computed by
`ApiError::into_response`; the response is built from exactly these
three (plus a timestamp). HTTP status codes are their numeric values. -/
def into_response : ApiError → Nat × String × String
  | Database _ => (500, "Database error occurred", "DATABASE_ERROR")
  | Unauthorized msg => (401, msg, "UNAUTHORIZED")
  | Validation msg => (400, msg, "VALIDATION_ERROR")
  | NotFound msg => (404, msg, "NOT_FOUND")
  | RateLimitExceeded msg => (429, msg, "RATE_LIMIT_EXCEEDED")
  | Internal _ => (500, "Internal server error", "INTERNAL_ERROR")
  | BadRequest msg => (400, msg, "BAD_REQUEST")
  | Conflict msg => (409, msg, "CONFLICT")
  | Config _ => (500, "Configuration error", "CONFIG_ERROR")

end ApiError

/-- What one `CircuitBreaker::call` produced: whether `operation()` was
actually executed (the source returns early, before the operation, when
`is_open` is true) and the returned `Result`. -/
structure CallRecord (T : Type) where
  invoked : Bool
  result : Except ApiError T
deriving Repr

namespace CircuitBreaker

/-- `CircuitBreaker::call` at time `now`. The operation is a thunk
returning `Ok` or `Err` with a display message `errMsg`. Rejection
produces `anyhow!("Circuit breaker is open")`, i.e. `ApiError::Internal`;
an operation failure produces `anyhow!("Operation failed: {}", e)`,
also `ApiError::Internal` — both via the `From<anyhow::Error>` impl. -/
def call {T E : Type} (errMsg : E → String) (cb : CircuitBreaker) (now : Nat)
    (operation : Unit → Except E T) : CallRecord T × CircuitBreaker :=
  let checked := is_open now cb
  if checked.1 then
    ({ invoked := false
       result := Except.error (ApiError.Internal "Circuit breaker is open") },
     checked.2)
  else
    match operation () with
    | Except.ok v =>
        ({ invoked := true, result := Except.ok v }, on_success checked.2)
    | Except.error e =>
        ({ invoked := true
           result := Except.error
             (ApiError.Internal ("Operation failed: " ++ errMsg e)) },
         on_failure now checked.2)

/-- One guarded call whose downstream outcome is given by `ok`
(`true` = the operation returns `Ok(())`, `false` = it returns an error
displayed as "downstream error"). -/
def callOutcome (cb : CircuitBreaker) (now : Nat) (ok : Bool) :
    CallRecord Unit × CircuitBreaker :=
  call (fun s => s) cb now
    (fun _ => if ok then Except.ok () else Except.error "downstream error")

/-- Run a sequence of guarded calls; each event is `(time, outcome)`. -/
def runCalls (cb : CircuitBreaker) (events : List (Nat × Bool)) :
    CircuitBreaker :=
  events.foldl (fun c e => (callOutcome c e.1 e.2).2) cb

end CircuitBreaker

/-! Rate limiting middleware, `crates/api/src/handlers/health.rs`.
The limiter object itself comes from the external `governor` crate
(not part of this repository); within a single window its direct
(un-keyed) limiter admits up to `capacity` calls and rejects the rest. -/

/-- Modelled from the spec: the `governor` crate's token bucket
(`RateLimiter::direct(Quota::per_minute(100))` is a dependency, not
code under `src/`), restricted to a single window: the state is the
quota remaining in the current window; `check` admits while quota
remains, consuming one unit per admission, and rejects without
consuming otherwise. -/
structure RateLimiterState where
  remaining : Nat
deriving DecidableEq, Repr

namespace RateLimiterState

/-- Modelled from the spec: `RateLimiter::direct(quota)` starts a fresh
bucket with the full quota available. -/
def direct (capacity : Nat) : RateLimiterState := { remaining := capacity }

/-- Modelled from the spec: `limiter.check()` — `true` (Admit) consumes
one unit of quota; `false` (Reject) consumes none. -/
def check (s : RateLimiterState) : Bool × RateLimiterState :=
  if s.remaining = 0 then (false, s) else (true, { remaining := s.remaining - 1 })

end RateLimiterState

/-- `rate_limit_middleware` for one inbound request: it constructs a
FRESH limiter (`Quota::per_minute(100)`, `RateLimiter::direct`) inside
the handler body, checks it once, and either forwards the request
(`Ok`) or rejects with `ApiError::RateLimitExceeded`. The limiter is
dropped when the function returns, so no state survives to the next
request. -/
def rate_limit_middleware : Except ApiError Unit :=
  if (RateLimiterState.check (RateLimiterState.direct 100)).1 then
    Except.ok ()
  else
    Except.error
      (ApiError.RateLimitExceeded "Too many requests. Please try again later.")

/-- The admission decisions seen by `n` sequential requests from one
IP within one window under the source middleware: every request runs
`rate_limit_middleware` on its own fresh limiter. -/
def middlewareDecisions (n : Nat) : List Bool :=
  List.replicate n (rate_limit_middleware matches Except.ok _)

/-- The decisions that `n` sequential checks yield on ONE shared
bucket (the behaviour the spec requires of `check`). -/
def sharedDecisions : Nat → RateLimiterState → List Bool
  | 0, _ => []
  | n + 1, s =>
      let p := RateLimiterState.check s
      p.1 :: sharedDecisions n p.2

/-! Feature flags, `crates/monitoring/src/feature_flags.rs`. -/

/-- A `serde_json::Value`. Objects are association lists (serde maps
preserve at most one value per key); numbers are rationals. -/
inductive Json
  | null
  | bool (b : Bool)
  | num (q : ℚ)
  | str (s : String)
  | arr (items : List Json)
  | obj (fields : List (String × Json))

namespace Json

/-- Structural equality of JSON values (`PartialEq` on
`serde_json::Value`); the nested list shapes under `arr` and `obj` are
compared by the two auxiliary recursors below. -/
def beq (a b : Json) : Bool :=
  match a, b with
  | obj fs, obj gs => eqvPairs fs gs
  | arr xs, arr ys => eqvItems xs ys
  | str u, str v => u == v
  | num p, num q => p == q
  | bool u, bool v => u == v
  | null, null => true
  | _, _ => false
where
  eqvItems : List Json → List Json → Bool
    | x :: xs, y :: ys => beq x y && eqvItems xs ys
    | [], [] => true
    | _, _ => false
  eqvPairs : List (String × Json) → List (String × Json) → Bool
    | (k, v) :: fs, (l, w) :: gs => (k == l && beq v w) && eqvPairs fs gs
    | [], [] => true
    | _, _ => false

instance : BEq Json := ⟨beq⟩

/-- `Value::get(key)`: field lookup on objects, `None` on every other
variant. -/
def get (j : Json) (key : String) : Option Json :=
  match j with
  | obj fields => fields.lookup key
  | _ => none

/-- `Value::as_array()`. -/
def as_array : Json → Option (List Json)
  | arr items => some items
  | _ => none

end Json

/-- `FeatureFlag` from `crates/core/src/enterprise.rs`; the two
`OffsetDateTime` fields are opaque ticks. -/
structure FeatureFlag where
  name : String
  enabled : Bool
  rollout_percentage : ℚ
  conditions : Option Json
  created_at : Nat
  updated_at : Nat

/-! `DefaultHasher` used by `hash_user_id` is `std`'s SipHash-1-3 with
both keys zero; `Hash for str` feeds the UTF-8 bytes of the string
followed by a single `0xFF` byte. All 64-bit words are `Nat` reduced
by `% 2 ^ 64`. -/

/-- Reduce to a 64-bit word. -/
def mask64 (x : Nat) : Nat := x % 2 ^ 64

/-- Rotate a 64-bit word left by `r` bits. -/
def rotl64 (x r : Nat) : Nat := mask64 (x <<< r) ||| (x >>> (64 - r))

/-- The four 64-bit lanes of the SipHash state. -/
structure SipState where
  v0 : Nat
  v1 : Nat
  v2 : Nat
  v3 : Nat
deriving DecidableEq, Repr

/-- One SipHash round (ARX mixing of the four lanes). -/
def sipround (s : SipState) : SipState :=
  let a0 := mask64 (s.v0 + s.v1)
  let b1 := rotl64 s.v1 13 ^^^ a0
  let a1 := rotl64 a0 32
  let c2 := mask64 (s.v2 + s.v3)
  let d3 := rotl64 s.v3 16 ^^^ c2
  let a2 := mask64 (a1 + d3)
  let d4 := rotl64 d3 21 ^^^ a2
  let c3 := mask64 (c2 + b1)
  let b2 := rotl64 b1 17 ^^^ c3
  let c4 := rotl64 c3 32
  { v0 := a2, v1 := b2, v2 := c4, v3 := d4 }

/-- Little-endian word from a list of bytes (first byte is least
significant). -/
def le64 (bytes : List Nat) : Nat :=
  bytes.foldr (fun b acc => b + 256 * acc) 0

/-- Absorb one message word: xor into `v3`, one round (SipHash-1-3 has
c = 1 compression round), xor into `v0`. -/
def sipCompress (s : SipState) (m : Nat) : SipState :=
  let s1 := sipround { s with v3 := s.v3 ^^^ m }
  { s1 with v0 := s1.v0 ^^^ m }

/-- Absorb the message: full 8-byte little-endian words, then the final
word made of the remaining bytes with `(len % 256) << 56` folded in. -/
def sipRun (s : SipState) (len : Nat) :
    List Nat → SipState
  | b0 :: b1 :: b2 :: b3 :: b4 :: b5 :: b6 :: b7 :: rest =>
      sipRun (sipCompress s (le64 [b0, b1, b2, b3, b4, b5, b6, b7])) len rest
  | rest => sipCompress s (le64 rest + mask64 ((len % 256) <<< 56))

/-- SipHash-1-3 of a byte sequence with 128-bit key `(k0, k1)`:
initialise the four lanes from the key, absorb, xor `0xFF` into `v2`,
run d = 3 finalisation rounds, xor the lanes together. -/
def siphash13 (k0 k1 : Nat) (bytes : List Nat) : Nat :=
  let s : SipState :=
    { v0 := 0x736f6d6570736575 ^^^ k0
      v1 := 0x646f72616e646f6d ^^^ k1
      v2 := 0x6c7967656e657261 ^^^ k0
      v3 := 0x7465646279746573 ^^^ k1 }
  let s1 := sipRun s bytes.length bytes
  let s2 := sipround (sipround (sipround { s1 with v2 := s1.v2 ^^^ 0xff }))
  s2.v0 ^^^ s2.v1 ^^^ s2.v2 ^^^ s2.v3

/-- UTF-8 encoding of one scalar value. -/
def utf8Bytes (c : Char) : List Nat :=
  let n := c.toNat
  if n < 0x80 then [n]
  else if n < 0x800 then
    [0xC0 ||| (n >>> 6), 0x80 ||| (n &&& 0x3F)]
  else if n < 0x10000 then
    [0xE0 ||| (n >>> 12), 0x80 ||| ((n >>> 6) &&& 0x3F), 0x80 ||| (n &&& 0x3F)]
  else
    [0xF0 ||| (n >>> 18), 0x80 ||| ((n >>> 12) &&& 0x3F),
     0x80 ||| ((n >>> 6) &&& 0x3F), 0x80 ||| (n &&& 0x3F)]

/-- UTF-8 bytes of a string. -/
def strBytes (s : String) : List Nat :=
  (s.data.map utf8Bytes).flatten

namespace InMemoryFeatureFlagService

/-- `hash_user_id`: `DefaultHasher::new()` (SipHash-1-3, keys 0,0),
`user_id.hash(...)` (UTF-8 bytes plus a `0xFF` terminator), then
`finish() as u32` — the low 32 bits of the 64-bit hash. -/
def hash_user_id (user_id : String) : Nat :=
  siphash13 0 0 (strBytes user_id ++ [0xff]) % 2 ^ 32

/-- `evaluate_conditions`: only consulted when BOTH a conditions object
and a context are present; then a `user_tier` key in the conditions
requires the context's `user_tier` to be a member of the allowed array
(a conditions `user_tier` that is not an array, or a context without
`user_tier`, yields `false`); a conditions object without `user_tier`
yields `true`. With no conditions or no context it yields `true`. -/
def evaluate_conditions (flag : FeatureFlag) (context : Option Json) : Bool :=
  match flag.conditions, context with
  | some conditions, some ctx =>
      match conditions.get "user_tier" with
      | some user_tier_conditions =>
          match ctx.get "user_tier" with
          | some user_tier =>
              match user_tier_conditions.as_array with
              | some tier_array => tier_array.contains user_tier
              | none => false
          | none => false
      | none => true
  | _, _ => true

/-- `check_rollout`. The ambient randomness drawn by
`rand::random::<f32>()` (a value in `[0,1)`) is passed in explicitly as
`r` so the anonymous branch is a function of the draw. For an
identified user the bucket is `(hash % 100) as f32` compared against
the percentage. -/
def check_rollout (flag : FeatureFlag) (user_id : Option String) (r : ℚ) : Bool :=
  if 100 ≤ flag.rollout_percentage then
    true
  else
    match user_id with
    | some uid =>
        decide (((hash_user_id uid % 100 : Nat) : ℚ) < flag.rollout_percentage)
    | none => decide (r * 100 < flag.rollout_percentage)

/-- `is_enabled` against a flag store (the `HashMap` is modelled by
association-list lookup): absent flag → `false`; disabled flag →
`false`; failing conditions → `false`; otherwise the rollout check. -/
def is_enabled (flags : List (String × FeatureFlag)) (flag_name : String)
    (user_id : Option String) (context : Option Json) (r : ℚ) : Bool :=
  match flags.lookup flag_name with
  | some flag =>
      if !flag.enabled then false
      else if !evaluate_conditions flag context then false
      else check_rollout flag user_id r
  | none => false

end InMemoryFeatureFlagService

/-! Concrete fixtures used by witnesses and counterexamples. -/

/-- The spec's concrete scenario configuration:
`{failure_threshold=3, recovery_timeout=60s, half_open_max_calls=2}`. -/
def cfg332 : CircuitBreakerConfig :=
  { failure_threshold := 3, recovery_timeout := 60, half_open_max_calls := 2 }

/-- A breaker sitting in `Open` with its third failure recorded at
tick 100. -/
def openBreaker : CircuitBreaker :=
  { config := cfg332
    state := CircuitState.Open
    failure_count := 3
    last_failure_time := some 100
    half_open_calls := 0 }

/-- A breaker sitting in `HalfOpen` with no probes recorded, under a
config capping half-open probes at one call. -/
def halfOpenBreaker : CircuitBreaker :=
  { config := { failure_threshold := 3, recovery_timeout := 60, half_open_max_calls := 1 }
    state := CircuitState.HalfOpen
    failure_count := 3
    last_failure_time := some 100
    half_open_calls := 0 }

/-- The `beta_features` default flag's conditions object:
`{"user_tier": ["premium", "enterprise"]}`. -/
def premiumConditions : Json :=
  Json.obj [("user_tier", Json.arr [Json.str "premium", Json.str "enterprise"])]

/-- A flag shaped like the `beta_features` default but switched on at
full rollout, keeping its conditions object. -/
def condFlag : FeatureFlag :=
  { name := "beta_features"
    enabled := true
    rollout_percentage := 100
    conditions := some premiumConditions
    created_at := 0
    updated_at := 0 }

/-- The `advanced_analytics` default flag: enabled, 50% rollout, no
conditions. -/
def analyticsFlag : FeatureFlag :=
  { name := "advanced_analytics"
    enabled := true
    rollout_percentage := 50
    conditions := none
    created_at := 0
    updated_at := 0 }

end RustApi

deriving instance DecidableEq for Except

open RustApi

/-- A call against an `Open` breaker whose recovery timeout has not yet
elapsed since the recorded failure is rejected: `operation()` is not
invoked, the "circuit open" error is returned, the breaker unchanged. -/
lemma callOutcome_open_rejected (cb : CircuitBreaker) (tf t : Nat) (ok : Bool)
    (hs : cb.state = CircuitState.Open)
    (hlf : cb.last_failure_time = some tf)
    (ht : t - tf < cb.config.recovery_timeout) :
    CircuitBreaker.callOutcome cb t ok =
      ({ invoked := false
         result := Except.error (ApiError.Internal "Circuit breaker is open") }, cb) := by
  unfold CircuitBreaker.callOutcome CircuitBreaker.call CircuitBreaker.is_open
  rw [hs, hlf]
  simp [Nat.not_le.mpr ht]

/-- C5: for a breaker in `Open` with failure recorded at `tf`, a call
strictly before `recovery_timeout` has elapsed is rejected with the
operation never invoked and the breaker (hence the state) unchanged; a
call at or after the timeout is admitted (`is_open` returns `false`)
with the state already `HalfOpen` when the call is evaluated, and the
operation is then invoked. -/
theorem open_state_timed_recovery (cb : CircuitBreaker) (tf now : Nat) (ok : Bool)
    (hs : cb.state = CircuitState.Open)
    (hlf : cb.last_failure_time = some tf) :
    (now - tf < cb.config.recovery_timeout →
      (CircuitBreaker.callOutcome cb now ok).1.invoked = false ∧
      (CircuitBreaker.callOutcome cb now ok).1.result =
        Except.error (ApiError.Internal "Circuit breaker is open") ∧
      (CircuitBreaker.callOutcome cb now ok).2 = cb) ∧
    (cb.config.recovery_timeout ≤ now - tf →
      (CircuitBreaker.is_open now cb).1 = false ∧
      (CircuitBreaker.is_open now cb).2.state = CircuitState.HalfOpen ∧
      (CircuitBreaker.callOutcome cb now ok).1.invoked = true) := by
  constructor
  · intro ht
    rw [callOutcome_open_rejected cb tf now ok hs hlf ht]
    exact ⟨rfl, rfl, rfl⟩
  · intro ht
    unfold CircuitBreaker.callOutcome CircuitBreaker.call CircuitBreaker.is_open
    rw [hs, hlf]
    cases ok <;>
      simp [ht, CircuitBreaker.transition_to_half_open]

/-- C5 witness: the breaker that opened at tick 100 under the spec's
concrete config, probed at tick 110. -/
theorem open_state_timed_recovery_witness :
    (openBreaker.state = CircuitState.Open ∧
     openBreaker.last_failure_time = some 100) ∧
    ((110 - 100 < openBreaker.config.recovery_timeout →
      (CircuitBreaker.callOutcome openBreaker 110 false).1.invoked = false ∧
      (CircuitBreaker.callOutcome openBreaker 110 false).1.result =
        Except.error (ApiError.Internal "Circuit breaker is open") ∧
      (CircuitBreaker.callOutcome openBreaker 110 false).2 = openBreaker) ∧
     (openBreaker.config.recovery_timeout ≤ 110 - 100 →
      (CircuitBreaker.is_open 110 openBreaker).1 = false ∧
      (CircuitBreaker.is_open 110 openBreaker).2.state = CircuitState.HalfOpen ∧
      (CircuitBreaker.callOutcome openBreaker 110 false).1.invoked = true)) :=
  ⟨⟨by decide, by decide⟩,
   open_state_timed_recovery openBreaker 100 110 false (by decide) (by decide)⟩

/-- C6: an admitted probe in `HalfOpen` (probe counter below the cap):
a success transitions the breaker to `Closed` with
`get_failure_count() == 0`; a failure transitions it back to `Open`. -/
theorem half_open_probe_outcome (cb : CircuitBreaker) (now : Nat)
    (hs : cb.state = CircuitState.HalfOpen)
    (hadm : cb.half_open_calls < cb.config.half_open_max_calls) :
    ((CircuitBreaker.callOutcome cb now true).1.invoked = true ∧
     (CircuitBreaker.callOutcome cb now true).2.state = CircuitState.Closed ∧
     (CircuitBreaker.callOutcome cb now true).2.get_failure_count = 0) ∧
    ((CircuitBreaker.callOutcome cb now false).1.invoked = true ∧
     (CircuitBreaker.callOutcome cb now false).2.state = CircuitState.Open) := by
  unfold CircuitBreaker.callOutcome CircuitBreaker.call CircuitBreaker.is_open
  rw [hs]
  simp [Nat.not_le.mpr hadm, hs, CircuitBreaker.on_success, CircuitBreaker.on_failure,
    CircuitBreaker.transition_to_closed, CircuitBreaker.transition_to_open,
    CircuitBreaker.get_failure_count]

/-- C6 witness: the `HalfOpen` breaker with cap 1 and no probes used. -/
theorem half_open_probe_outcome_witness :
    (halfOpenBreaker.state = CircuitState.HalfOpen ∧
     halfOpenBreaker.half_open_calls < halfOpenBreaker.config.half_open_max_calls) ∧
    (((CircuitBreaker.callOutcome halfOpenBreaker 170 true).1.invoked = true ∧
      (CircuitBreaker.callOutcome halfOpenBreaker 170 true).2.state = CircuitState.Closed ∧
      (CircuitBreaker.callOutcome halfOpenBreaker 170 true).2.get_failure_count = 0) ∧
     ((CircuitBreaker.callOutcome halfOpenBreaker 170 false).1.invoked = true ∧
      (CircuitBreaker.callOutcome halfOpenBreaker 170 false).2.state = CircuitState.Open)) :=
  ⟨⟨by decide, by decide⟩,
   half_open_probe_outcome halfOpenBreaker 170 (by decide) (by decide)⟩

/-- C1 (code bug): with `half_open_max_calls = 1`, a `HalfOpen` breaker
grants two admission checks in a row while still `HalfOpen`, and its
probe counter stays 0 after the first admission — the source never
increments `half_open_calls`, so admissions are not counted against the
cap and the second call is not rejected. -/
theorem half_open_probe_cap_never_engages :
    (CircuitBreaker.is_open 130 halfOpenBreaker).1 = false ∧
    (CircuitBreaker.is_open 130 halfOpenBreaker).2 = halfOpenBreaker ∧
    (CircuitBreaker.is_open 130 (CircuitBreaker.is_open 130 halfOpenBreaker).2).1 = false := by
  decide

set_option maxRecDepth 4000 in
/-- C2 (code bug): the middleware builds a FRESH limiter per request,
so 150 sequential requests from one IP in one window are all admitted
(150 Admit, 0 Reject) instead of the claimed 100/50; the 100/50 split
does hold for 150 checks against one shared bucket of capacity 100. -/
theorem per_request_limiter_admits_all :
    ((middlewareDecisions 150).count true = 150 ∧
     (middlewareDecisions 150).count false = 0) ∧
    ((sharedDecisions 150 (RateLimiterState.direct 100)).count true = 100 ∧
     (sharedDecisions 150 (RateLimiterState.direct 100)).count false = 50) := by
  decide

/-- C3 (counterexample): an enabled flag carrying a conditions object,
evaluated with NO context, returns `true` — not `false` as the
fail-closed claim states (here at full rollout for user "u-42"). -/
theorem absent_context_fail_open_cex :
    InMemoryFeatureFlagService.is_enabled
      [(condFlag.name, condFlag)] condFlag.name (some "u-42") none 0 = true := by
  decide

/-- C3 (amended): when no context is supplied, `evaluate_conditions`
returns `true` whatever the conditions object holds, so `is_enabled`
for an enabled flag is decided by the rollout check alone (fail OPEN),
instead of returning `false`. -/
theorem absent_context_skips_conditions (flag : FeatureFlag)
    (user_id : Option String) (r : ℚ) (hen : flag.enabled = true) :
    InMemoryFeatureFlagService.evaluate_conditions flag none = true ∧
    InMemoryFeatureFlagService.is_enabled [(flag.name, flag)] flag.name user_id none r =
      InMemoryFeatureFlagService.check_rollout flag user_id r := by
  have hev : InMemoryFeatureFlagService.evaluate_conditions flag none = true := by
    unfold InMemoryFeatureFlagService.evaluate_conditions
    cases flag.conditions <;> rfl
  refine ⟨hev, ?_⟩
  unfold InMemoryFeatureFlagService.is_enabled
  simp [List.lookup, hen, hev]

/-- C3 witness: the conditioned flag, an identified user, no context. -/
theorem absent_context_skips_conditions_witness :
    condFlag.enabled = true ∧
    (InMemoryFeatureFlagService.evaluate_conditions condFlag none = true ∧
     InMemoryFeatureFlagService.is_enabled
       [(condFlag.name, condFlag)] condFlag.name (some "u-1") none 0 =
       InMemoryFeatureFlagService.check_rollout condFlag (some "u-1") 0) :=
  ⟨by decide, absent_context_skips_conditions condFlag (some "u-1") 0 (by decide)⟩

/-- C7 (counterexample): a rejected (never-invoked) call on an open
circuit and an admitted call whose operation failed both yield
`ApiError::Internal`, and `into_response` maps them to the identical
(500, "Internal server error", "INTERNAL_ERROR") signal — there is no
distinct `CircuitOpenError` / `OperationFailedError` split. -/
theorem circuit_rejection_indistinguishable_cex :
    (CircuitBreaker.call (fun s => s) openBreaker 110
      (fun _ => (Except.error "boom" : Except String Unit))).1.invoked = false ∧
    (CircuitBreaker.call (fun s => s) openBreaker 110
      (fun _ => (Except.error "boom" : Except String Unit))).1.result =
      Except.error (ApiError.Internal "Circuit breaker is open") ∧
    (CircuitBreaker.call (fun s => s) (CircuitBreaker.new cfg332) 0
      (fun _ => (Except.error "boom" : Except String Unit))).1.invoked = true ∧
    (CircuitBreaker.call (fun s => s) (CircuitBreaker.new cfg332) 0
      (fun _ => (Except.error "boom" : Except String Unit))).1.result =
      Except.error (ApiError.Internal "Operation failed: boom") ∧
    ApiError.into_response (ApiError.Internal "Circuit breaker is open") =
      ApiError.into_response (ApiError.Internal "Operation failed: boom") := by
  decide

/-- C7 (amended): a rate-limit rejection is a distinct, stable signal —
`RateLimitExceeded`, mapped to status 429 / RATE_LIMIT_EXCEEDED —
different from the circuit errors; but an open-circuit rejection is the
same generic `Internal` error as an operation failure, and both map to
the identical (500, "Internal server error", "INTERNAL_ERROR")
response. -/
theorem rejection_error_taxonomy (cb : CircuitBreaker) (tf now : Nat)
    (ok : Bool) (m msg : String)
    (hs : cb.state = CircuitState.Open)
    (hlf : cb.last_failure_time = some tf)
    (ht : now - tf < cb.config.recovery_timeout) :
    (CircuitBreaker.callOutcome cb now ok).1.result =
      Except.error (ApiError.Internal "Circuit breaker is open") ∧
    ApiError.into_response (ApiError.RateLimitExceeded msg) =
      (429, msg, "RATE_LIMIT_EXCEEDED") ∧
    ApiError.into_response (ApiError.RateLimitExceeded msg) ≠
      ApiError.into_response (ApiError.Internal "Circuit breaker is open") ∧
    ApiError.into_response (ApiError.Internal "Circuit breaker is open") =
      ApiError.into_response (ApiError.Internal ("Operation failed: " ++ m)) := by
  refine ⟨?_, rfl, ?_, rfl⟩
  · rw [callOutcome_open_rejected cb tf now ok hs hlf ht]
  · intro h
    have h1 : (429 : Nat) = 500 := congrArg Prod.fst h
    exact absurd h1 (by decide)

/-- C7 witness: the open breaker at tick 110, message "boom", and the
middleware's rate-limit message. -/
theorem rejection_error_taxonomy_witness :
    (openBreaker.state = CircuitState.Open ∧
     openBreaker.last_failure_time = some 100 ∧
     110 - 100 < openBreaker.config.recovery_timeout) ∧
    ((CircuitBreaker.callOutcome openBreaker 110 false).1.result =
      Except.error (ApiError.Internal "Circuit breaker is open") ∧
     ApiError.into_response
       (ApiError.RateLimitExceeded "Too many requests. Please try again later.") =
       (429, "Too many requests. Please try again later.", "RATE_LIMIT_EXCEEDED") ∧
     ApiError.into_response
       (ApiError.RateLimitExceeded "Too many requests. Please try again later.") ≠
       ApiError.into_response (ApiError.Internal "Circuit breaker is open") ∧
     ApiError.into_response (ApiError.Internal "Circuit breaker is open") =
       ApiError.into_response (ApiError.Internal ("Operation failed: " ++ "boom"))) :=
  ⟨⟨by decide, by decide, by decide⟩,
   rejection_error_taxonomy openBreaker 100 110 false "boom"
     "Too many requests. Please try again later." (by decide) (by decide) (by decide)⟩

/-- C8: for an identified user the evaluation never consults the
per-call random draw — two calls with different ambient draws return
the same boolean for the same store, flag name, user and context. -/
theorem identified_user_deterministic (flags : List (String × FeatureFlag))
    (flag_name user_id : String) (context : Option Json) (r1 r2 : ℚ) :
    InMemoryFeatureFlagService.is_enabled flags flag_name (some user_id) context r1 =
      InMemoryFeatureFlagService.is_enabled flags flag_name (some user_id) context r2 := rfl

/-- C9: raising the rollout percentage (flag otherwise unchanged) never
flips an identified user's passing rollout check back to failing. -/
theorem rollout_monotone (flag : FeatureFlag) (p1 p2 r : ℚ) (user_id : String)
    (hle : p1 ≤ p2)
    (h : InMemoryFeatureFlagService.check_rollout
      { flag with rollout_percentage := p1 } (some user_id) r = true) :
    InMemoryFeatureFlagService.check_rollout
      { flag with rollout_percentage := p2 } (some user_id) r = true := by
  unfold InMemoryFeatureFlagService.check_rollout at h ⊢
  dsimp only at h ⊢
  by_cases h2 : (100 : ℚ) ≤ p2
  · rw [if_pos h2]
  · have h1 : ¬ (100 : ℚ) ≤ p1 := fun hc => h2 (hc.trans hle)
    rw [if_neg h1] at h
    rw [if_neg h2]
    simp only [decide_eq_true_eq] at h ⊢
    exact lt_of_lt_of_le h hle

/-- Running no calls leaves the breaker untouched. -/
lemma runCalls_nil (cb : CircuitBreaker) : CircuitBreaker.runCalls cb [] = cb := rfl

/-- Running a sequence of calls decomposes head first. -/
lemma runCalls_cons (cb : CircuitBreaker) (e : Nat × Bool) (l : List (Nat × Bool)) :
    CircuitBreaker.runCalls cb (e :: l) =
      CircuitBreaker.runCalls (CircuitBreaker.callOutcome cb e.1 e.2).2 l := rfl

/-- Running a concatenation of call sequences composes. -/
lemma runCalls_append (cb : CircuitBreaker) (l1 l2 : List (Nat × Bool)) :
    CircuitBreaker.runCalls cb (l1 ++ l2) =
      CircuitBreaker.runCalls (CircuitBreaker.runCalls cb l1) l2 := by
  unfold CircuitBreaker.runCalls
  rw [List.foldl_append]

/-- One failing call on a `Closed` breaker whose counter stays strictly
below the threshold: the operation runs, its failure is wrapped, and
the only state change is the incremented counter. -/
lemma callOutcome_closed_fail_below (cb : CircuitBreaker) (t : Nat)
    (hs : cb.state = CircuitState.Closed)
    (hlt : cb.failure_count + 1 < cb.config.failure_threshold)
    (h32 : cb.config.failure_threshold ≤ 2 ^ 32) :
    CircuitBreaker.callOutcome cb t false =
      ({ invoked := true
         result := Except.error
           (ApiError.Internal "Operation failed: downstream error") },
       { cb with failure_count := cb.failure_count + 1 }) := by
  have hmod : (cb.failure_count + 1) % 2 ^ 32 = cb.failure_count + 1 :=
    Nat.mod_eq_of_lt (lt_of_lt_of_le hlt h32)
  have hmodl : (cb.failure_count + 1) % 4294967296 = cb.failure_count + 1 := hmod
  unfold CircuitBreaker.callOutcome CircuitBreaker.call CircuitBreaker.is_open
    CircuitBreaker.on_failure
  rw [hs]
  simp [hmod, hmodl, Nat.not_le.mpr hlt, hs]

/-- One failing call on a `Closed` breaker that carries the counter to
(at least) the threshold: the breaker transitions to `Open`, recording
the failure time and resetting the probe counter. -/
lemma callOutcome_closed_fail_hit (cb : CircuitBreaker) (t : Nat)
    (hs : cb.state = CircuitState.Closed)
    (hge : cb.config.failure_threshold ≤ cb.failure_count + 1)
    (h32 : cb.failure_count + 1 < 2 ^ 32) :
    (CircuitBreaker.callOutcome cb t false).2 =
      { cb with
        state := CircuitState.Open
        failure_count := cb.failure_count + 1
        last_failure_time := some t
        half_open_calls := 0 } := by
  have hmod : (cb.failure_count + 1) % 2 ^ 32 = cb.failure_count + 1 :=
    Nat.mod_eq_of_lt h32
  have hmodl : (cb.failure_count + 1) % 4294967296 = cb.failure_count + 1 := hmod
  unfold CircuitBreaker.callOutcome CircuitBreaker.call CircuitBreaker.is_open
    CircuitBreaker.on_failure CircuitBreaker.transition_to_open
  rw [hs]
  simp [hmod, hmodl, hge, hs]

/-- A run of failing calls all strictly below the threshold keeps the
breaker `Closed` and adds one failure per call. -/
lemma runCalls_closed_fails (l : List Nat) (cb : CircuitBreaker)
    (hs : cb.state = CircuitState.Closed)
    (hbound : cb.failure_count + l.length < cb.config.failure_threshold)
    (h32 : cb.config.failure_threshold ≤ 2 ^ 32) :
    CircuitBreaker.runCalls cb (l.map fun t => (t, false)) =
      { cb with failure_count := cb.failure_count + l.length } := by
  induction l generalizing cb with
  | nil =>
      rw [List.map_nil, runCalls_nil]
      simp
  | cons t rest ih =>
      have hlt : cb.failure_count + 1 < cb.config.failure_threshold := by
        simp only [List.length_cons] at hbound
        omega
      rw [List.map_cons, runCalls_cons]
      have hstep := congrArg Prod.snd (callOutcome_closed_fail_below cb t hs hlt h32)
      simp only [] at hstep
      rw [hstep]
      have hres := ih { cb with failure_count := cb.failure_count + 1 } hs
        (by simp only [List.length_cons] at hbound; simpa using by omega)
        h32
      rw [hres]
      have harith : cb.failure_count + 1 + rest.length =
          cb.failure_count + (t :: rest).length := by
        simp [List.length_cons]
        omega
      simp [harith]

/-- C4: starting from a fresh breaker, a sequence of exactly
`failure_threshold` failing calls increments the failure counter by one
per call, stays `Closed` on every proper prefix and is `Open` exactly
when all `failure_threshold` failures are in (the transition happens
once, on the final failure); the next call, issued before the recovery
timeout has elapsed since the last failure, is rejected without the
operation being invoked and leaves the breaker unchanged. -/
theorem closed_failures_open_once (cfg : CircuitBreakerConfig) (ts : List Nat)
    (next : Nat)
    (hth : 1 ≤ cfg.failure_threshold)
    (h32 : cfg.failure_threshold < 2 ^ 32)
    (hlen : ts.length = cfg.failure_threshold)
    (hne : ts ≠ [])
    (hnext : next - ts.getLast hne < cfg.recovery_timeout) :
    (∀ k, k ≤ cfg.failure_threshold →
      (CircuitBreaker.runCalls (CircuitBreaker.new cfg)
        ((ts.take k).map fun t => (t, false))).get_failure_count = k ∧
      ((CircuitBreaker.runCalls (CircuitBreaker.new cfg)
        ((ts.take k).map fun t => (t, false))).state = CircuitState.Open ↔
        k = cfg.failure_threshold)) ∧
    (CircuitBreaker.callOutcome
      (CircuitBreaker.runCalls (CircuitBreaker.new cfg)
        (ts.map fun t => (t, false))) next false).1.invoked = false ∧
    (CircuitBreaker.callOutcome
      (CircuitBreaker.runCalls (CircuitBreaker.new cfg)
        (ts.map fun t => (t, false))) next false).2 =
      CircuitBreaker.runCalls (CircuitBreaker.new cfg)
        (ts.map fun t => (t, false)) := by
  have hfull : CircuitBreaker.runCalls (CircuitBreaker.new cfg)
      (ts.map fun t => (t, false)) =
      { config := cfg
        state := CircuitState.Open
        failure_count := cfg.failure_threshold
        last_failure_time := some (ts.getLast hne)
        half_open_calls := 0 } := by
    conv_lhs => rw [← List.dropLast_append_getLast hne]
    rw [List.map_append, runCalls_append, List.map_cons, List.map_nil]
    have hdlen : ts.dropLast.length = cfg.failure_threshold - 1 := by
      rw [List.length_dropLast, hlen]
    have hpre := runCalls_closed_fails ts.dropLast (CircuitBreaker.new cfg) rfl
      (by simp [CircuitBreaker.new, hdlen]; omega) (le_of_lt h32)
    rw [hpre, runCalls_cons]
    have hhit := callOutcome_closed_fail_hit
      { CircuitBreaker.new cfg with
        failure_count := (CircuitBreaker.new cfg).failure_count + ts.dropLast.length }
      (ts.getLast hne) rfl
      (by simp [CircuitBreaker.new, hdlen]; omega)
      (by simp [CircuitBreaker.new, hdlen]; omega)
    simp only [] at hhit
    rw [runCalls_nil, hhit]
    simp [CircuitBreaker.new, hdlen]
    omega
  refine ⟨?_, ?_, ?_⟩
  · intro k hk
    rcases lt_or_eq_of_le hk with hklt | hkeq
    · have htake : (ts.take k).length = k := by
        rw [List.length_take, hlen]
        omega
      have hrun := runCalls_closed_fails (ts.take k) (CircuitBreaker.new cfg) rfl
        (by simp [CircuitBreaker.new, htake]; omega) (le_of_lt h32)
      rw [hrun]
      refine ⟨by simp [CircuitBreaker.new, CircuitBreaker.get_failure_count, htake], ?_⟩
      constructor
      · intro hx
        simp [CircuitBreaker.new] at hx
      · intro hx
        omega
    · subst hkeq
      have htake : ts.take cfg.failure_threshold = ts := by
        rw [← hlen]
        exact List.take_length ts
      rw [htake, hfull]
      exact ⟨rfl, by simp⟩
  · rw [hfull]
    have := callOutcome_open_rejected
      { config := cfg
        state := CircuitState.Open
        failure_count := cfg.failure_threshold
        last_failure_time := some (ts.getLast hne)
        half_open_calls := 0 } (ts.getLast hne) next false rfl rfl hnext
    rw [this]
  · rw [hfull]
    have := callOutcome_open_rejected
      { config := cfg
        state := CircuitState.Open
        failure_count := cfg.failure_threshold
        last_failure_time := some (ts.getLast hne)
        half_open_calls := 0 } (ts.getLast hne) next false rfl rfl hnext
    rw [this]

/-- C4 witness: the spec's concrete scenario — threshold 3, three
failures at ticks 5, 6, 7, and a fourth call at tick 17 (10 ticks after
the last failure, inside the 60-tick recovery timeout). -/
theorem closed_failures_open_once_witness :
    (1 ≤ cfg332.failure_threshold ∧
     cfg332.failure_threshold < 2 ^ 32 ∧
     [5, 6, 7].length = cfg332.failure_threshold ∧
     ([5, 6, 7] : List Nat) ≠ [] ∧
     17 - ([5, 6, 7] : List Nat).getLast (by decide) < cfg332.recovery_timeout) ∧
    ((∀ k, k ≤ cfg332.failure_threshold →
      (CircuitBreaker.runCalls (CircuitBreaker.new cfg332)
        (([5, 6, 7].take k).map fun t => (t, false))).get_failure_count = k ∧
      ((CircuitBreaker.runCalls (CircuitBreaker.new cfg332)
        (([5, 6, 7].take k).map fun t => (t, false))).state = CircuitState.Open ↔
        k = cfg332.failure_threshold)) ∧
     (CircuitBreaker.callOutcome
       (CircuitBreaker.runCalls (CircuitBreaker.new cfg332)
         ([5, 6, 7].map fun t => (t, false))) 17 false).1.invoked = false ∧
     (CircuitBreaker.callOutcome
       (CircuitBreaker.runCalls (CircuitBreaker.new cfg332)
         ([5, 6, 7].map fun t => (t, false))) 17 false).2 =
       CircuitBreaker.runCalls (CircuitBreaker.new cfg332)
         ([5, 6, 7].map fun t => (t, false))) :=
  ⟨⟨by decide, by decide, by decide, by decide, by decide⟩,
   closed_failures_open_once cfg332 [5, 6, 7] 17 (by decide) (by decide)
     (by decide) (by decide) (by decide)⟩

/-- A single guarded call preserves the invariant that an `Open`
breaker carries a recorded failure time. -/
lemma callOutcome_preserves_open_time (cb : CircuitBreaker) (t : Nat) (b : Bool)
    (h : cb.state = CircuitState.Open → cb.last_failure_time ≠ none) :
    (CircuitBreaker.callOutcome cb t b).2.state = CircuitState.Open →
    (CircuitBreaker.callOutcome cb t b).2.last_failure_time ≠ none := by
  unfold CircuitBreaker.callOutcome CircuitBreaker.call CircuitBreaker.is_open
    CircuitBreaker.on_success CircuitBreaker.on_failure
    CircuitBreaker.transition_to_open CircuitBreaker.transition_to_half_open
    CircuitBreaker.transition_to_closed
  cases hst : cb.state with
  | Closed =>
      cases b with
      | true => simp [hst]
      | false =>
          simp only [hst]
          split_ifs <;> simp [hst]
  | Open =>
      cases hlf : cb.last_failure_time with
      | none =>
          simp [hst, hlf]
          exact absurd hlf (h hst)
      | some tf =>
          cases b with
          | true =>
              simp only [hst, hlf]
              split_ifs <;> simp [hst, hlf]
          | false =>
              simp only [hst, hlf]
              split_ifs <;> simp [hst, hlf]
  | HalfOpen =>
      cases b with
      | true =>
          simp only [hst]
          split_ifs <;> simp [hst]
      | false =>
          simp only [hst]
          split_ifs <;> simp [hst]

/-- C10: every breaker reachable from a fresh one by any sequence of
timed call outcomes satisfies: `Open` implies a recorded failure time.
Hence `is_open`'s rejection branch for an `Open` breaker with
`last_failure_time == None` is unreachable and the timed recovery check
always measures elapsed time from an actual failure. -/
theorem open_implies_failure_time (cfg : CircuitBreakerConfig)
    (events : List (Nat × Bool))
    (h : (CircuitBreaker.runCalls (CircuitBreaker.new cfg) events).state =
      CircuitState.Open) :
    (CircuitBreaker.runCalls (CircuitBreaker.new cfg) events).last_failure_time ≠
      none := by
  have inv : ∀ (l : List (Nat × Bool)) (cb : CircuitBreaker),
      (cb.state = CircuitState.Open → cb.last_failure_time ≠ none) →
      ((CircuitBreaker.runCalls cb l).state = CircuitState.Open →
        (CircuitBreaker.runCalls cb l).last_failure_time ≠ none) := by
    intro l
    induction l with
    | nil =>
        intro cb h0
        simpa [runCalls_nil] using h0
    | cons e rest ih =>
        intro cb h0
        rw [runCalls_cons]
        exact ih _ (callOutcome_preserves_open_time cb e.1 e.2 h0)
  exact inv events (CircuitBreaker.new cfg)
    (by intro hx; simp [CircuitBreaker.new] at hx) h

/-- C10 witness: three straight failures under the scenario config
leave the breaker `Open` with a recorded failure time. -/
theorem open_implies_failure_time_witness :
    (CircuitBreaker.runCalls (CircuitBreaker.new cfg332)
      [(5, false), (6, false), (7, false)]).state = CircuitState.Open ∧
    (CircuitBreaker.runCalls (CircuitBreaker.new cfg332)
      [(5, false), (6, false), (7, false)]).last_failure_time ≠ none :=
  ⟨by decide,
   open_implies_failure_time cfg332 [(5, false), (6, false), (7, false)] (by decide)⟩

/-- C9 witness: user "u-42" hashes to bucket 79, which passes at 80%
and therefore still passes at 90%. -/
theorem rollout_monotone_witness :
    ((80 : ℚ) ≤ 90 ∧
     InMemoryFeatureFlagService.check_rollout
       { analyticsFlag with rollout_percentage := 80 } (some "u-42") 0 = true) ∧
    InMemoryFeatureFlagService.check_rollout
      { analyticsFlag with rollout_percentage := 90 } (some "u-42") 0 = true :=
  ⟨⟨by norm_num, by decide⟩,
   rollout_monotone analyticsFlag 80 90 0 "u-42" (by norm_num) (by decide)⟩
